import Mathlib

/-!
Verification of the trading smoke-test script of the ln-markets-grid-bot
repository (src/testscript.py) against its design specification.

Modelling decisions, written once here:

* Numbers are modelled as exact rationals.  Python arithmetic on prices is
  floating point; every numeric property stated by the specification is an
  exact identity over the rational semantics of the same expressions, and
  the rounding function is the Python builtin `round` (round half to even,
  returning an integer).
* The arithmetic on rationals is expressed through `qmul`, `qdiv`, `qsub`,
  `qadd`, which are definitionally the textbook numerator and denominator
  formulas built on `Rat.divInt`; the bridge lemmas `qmul_eq`, `qdiv_eq`,
  `qsub_eq` prove that they agree with the Mathlib field operations on ℚ,
  so theorem statements can use ordinary notation while concrete runs still
  evaluate inside the kernel.
* Python values flowing through the script (API responses, dictionary
  fields) are modelled by the inductive type `PyVal` (None, numbers,
  strings, dictionaries as association lists, lists).
* Side effects are modelled as an explicit trace of `Event` values: the
  three REST calls, the fixed sleeps, the log lines (with their format
  string and arguments) and an uncaught exception terminating the run.
* The external REST client is an oracle: a list of responses, one per call
  made by the script, each either a value or a raised transport error,
  consumed in call order; the JSON deserializer used by parse_response is
  an abstract function parameter `loads`.
-/

/-! ## Exact rational arithmetic that evaluates inside the kernel -/

/-- Product of two rationals through the numerator and denominator formula.
Definitionally equal to the field product on ℚ (see `qmul_eq`); spelled via
`Rat.divInt` so that closed runs of the script reduce by `rfl`. -/
def qmul (a b : ℚ) : ℚ := Rat.divInt (a.num * b.num) ((a.den : ℤ) * (b.den : ℤ))

/-- Quotient of two rationals through the numerator and denominator formula,
agreeing with division on ℚ (see `qdiv_eq`); division by zero gives zero. -/
def qdiv (a b : ℚ) : ℚ := Rat.divInt (a.num * (b.den : ℤ)) ((a.den : ℤ) * b.num)

/-- Difference of two rationals through the numerator and denominator
formula, agreeing with subtraction on ℚ (see `qsub_eq`). -/
def qsub (a b : ℚ) : ℚ :=
  Rat.divInt (a.num * (b.den : ℤ) - b.num * (a.den : ℤ)) ((a.den : ℤ) * (b.den : ℤ))

/-- Sum of two rationals through the numerator and denominator formula. -/
def qadd (a b : ℚ) : ℚ :=
  Rat.divInt (a.num * (b.den : ℤ) + b.num * (a.den : ℤ)) ((a.den : ℤ) * (b.den : ℤ))

/-- The Python builtin `round` on an exact rational: nearest integer, ties
going to the even integer (banker rounding), as `round` does on floats. -/
def pyround (q : ℚ) : ℤ :=
  let n := q.num
  let d := (q.den : ℤ)
  let f := Int.fdiv n d
  let r := n - f * d
  if 2 * r < d then f
  else if d < 2 * r then f + 1
  else if f % 2 = 0 then f else f + 1

/-! ## Python values -/

/-- Python values that flow through the script: None, numbers (modelled as
exact rationals), strings, dictionaries (association lists with string
keys) and lists. -/
inductive PyVal where
  | none : PyVal
  | num (q : ℚ) : PyVal
  | str (s : String) : PyVal
  | dict (fields : List (String × PyVal)) : PyVal
  | list (elems : List PyVal) : PyVal

/-- Python truthiness: None, zero, the empty string, the empty dict and the
empty list are falsy, everything else is truthy. -/
def truthy : PyVal → Bool
  | PyVal.none => false
  | PyVal.num q => if q = 0 then false else true
  | PyVal.str s => if s = "" then false else true
  | PyVal.dict fs => if fs.isEmpty then false else true
  | PyVal.list xs => if xs.isEmpty then false else true

/-- Dictionary method `d.get(key, default)`; raises AttributeError (as an
`Except.error`) when the receiver is not a dictionary. -/
def pyGet (v : PyVal) (key : String) (default : PyVal) : Except String PyVal :=
  match v with
  | PyVal.dict fs => Except.ok ((fs.lookup key).getD default)
  | _ => Except.error "AttributeError"

/-- Subscript `d[key]`; KeyError when absent, TypeError on a non dictionary. -/
def pySub (v : PyVal) (key : String) : Except String PyVal :=
  match v with
  | PyVal.dict fs =>
    match fs.lookup key with
    | some w => Except.ok w
    | Option.none => Except.error "KeyError"
  | _ => Except.error "TypeError"

/-- Numeric value of a digit list, most significant first. -/
def natOfDigits (cs : List Char) : ℕ :=
  cs.foldl (fun a c => a * 10 + (c.toNat - 48)) 0

/-- Splits a character list at the first decimal point, if any. -/
def splitIntFrac : List Char → List Char × Option (List Char)
  | [] => ([], Option.none)
  | c :: cs =>
    if c = '.' then ([], Option.some cs)
    else
      let p := splitIntFrac cs
      (c :: p.1, p.2)

/-- Unsigned decimal literal: digits, optionally with a fractional part;
at least one digit must be present. -/
def parseUnsignedDec (cs : List Char) : Option ℚ :=
  let p := splitIntFrac cs
  match p.2 with
  | Option.none =>
    if cs.all Char.isDigit && !cs.isEmpty then Option.some ((natOfDigits cs : ℕ) : ℚ)
    else Option.none
  | Option.some fcs =>
    if p.1.all Char.isDigit && fcs.all Char.isDigit && !(p.1.isEmpty && fcs.isEmpty) then
      Option.some (qadd ((natOfDigits p.1 : ℕ) : ℚ)
        (qdiv ((natOfDigits fcs : ℕ) : ℚ) (((10 ^ fcs.length : ℕ) : ℚ))))
    else Option.none

/-- The Python builtin `float` applied to a string, restricted to plain
signed decimal literals (the only forms the ticker endpoint produces). -/
def parsePyFloatString (s : String) : Option ℚ :=
  match s.data with
  | [] => Option.none
  | c :: cs =>
    if c = '-' then (parseUnsignedDec cs).map (fun q => Rat.neg q)
    else if c = '+' then parseUnsignedDec cs
    else parseUnsignedDec (c :: cs)

/-- The Python builtin `float` on a value: numbers pass through, numeric
strings are parsed, everything else raises TypeError (modelled as
`Option.none`). -/
def pyFloat : PyVal → Option ℚ
  | PyVal.num q => Option.some q
  | PyVal.str s => parsePyFloatString s
  | _ => Option.none

/-! ## Event traces -/

/-- Observable effects of one run of the script: the REST calls with the
request record they carry, the fixed sleeps, the log lines (format string
plus arguments) and an uncaught exception ending the run. -/
inductive Event where
  | getTicker : Event
  | newTrade (params : PyVal) : Event
  | updateTrade (params : PyVal) : Event
  | sleep (seconds : ℚ) : Event
  | logDebug (msg : String) (args : List PyVal) : Event
  | logInfo (msg : String) (args : List PyVal) : Event
  | logError (msg : String) (args : List PyVal) : Event
  | raised (msg : String) : Event

/-- Tags of the externally visible pacing behaviour: order placements,
trade updates and sleeps, the latter with their duration. -/
inductive CallTag where
  | newT : CallTag
  | updT : CallTag
  | sleepT (seconds : ℚ) : CallTag
deriving DecidableEq

/-- Tag of an event when it is a call or a sleep. -/
def tagOf : Event → Option CallTag
  | Event.newTrade _ => Option.some CallTag.newT
  | Event.updateTrade _ => Option.some CallTag.updT
  | Event.sleep q => Option.some (CallTag.sleepT q)
  | _ => Option.none

/-- The calls and sleeps of a trace, in order. -/
def skeleton (es : List Event) : List CallTag := es.filterMap tagOf

/-- Whether a tag is a sleep. -/
def isSleepTag : CallTag → Bool
  | CallTag.sleepT _ => true
  | _ => false

/-- Number of order placement calls in a trace. -/
def numNewTrades (es : List Event) : ℕ := (skeleton es).count CallTag.newT

/-- Number of trade update calls in a trace. -/
def numUpdateTrades (es : List Event) : ℕ := (skeleton es).count CallTag.updT

/-- Number of sleeps in a trace. -/
def numSleeps (es : List Event) : ℕ := (skeleton es).countP isSleepTag

/-- Whether an event is an uncaught exception marker. -/
def isRaised : Event → Bool
  | Event.raised _ => true
  | _ => false

/-- Number of uncaught exception markers in a trace. -/
def numRaised (es : List Event) : ℕ := es.countP isRaised

/-- The request records of the order placement calls of a trace, in order. -/
def newTradeParams (es : List Event) : List PyVal :=
  es.filterMap (fun e =>
    match e with
    | Event.newTrade p => Option.some p
    | _ => Option.none)

/-- The log line of main reporting estimated against ideal take-profit. -/
def idealTpMsg : String :=
  "Werkelijke entry_price: %.2f, geschatte take-profit: %.0f, ideale take-profit: %.0f"

/-- Argument lists of the log lines comparing the estimated take-profit
with the ideal entry-price based target. -/
def idealTpLogs (es : List Event) : List (List PyVal) :=
  es.filterMap (fun e =>
    match e with
    | Event.logInfo m args => if m = idealTpMsg then Option.some args else Option.none
    | _ => Option.none)

/-! ## The helper functions of testscript.py -/

/-- Result of parse_response: the structured value plus the log lines the
call produced. -/
structure ParseResult where
  events : List Event
  value : PyVal

/-- Embedding of parse_response (testscript.py lines 65 to 73): a value
that is already a dict or a list is returned unchanged; anything else is
handed to the JSON deserializer `loads`; a deserialization failure is
caught, logged, and turned into the empty dict.  The function is total:
no exception escapes. -/
def parse_response (loads : PyVal → Except String PyVal) (response : PyVal) : ParseResult :=
  match response with
  | PyVal.dict fs => ⟨[], PyVal.dict fs⟩
  | PyVal.list xs => ⟨[], PyVal.list xs⟩
  | other =>
    match loads other with
    | Except.ok v => ⟨[], v⟩
    | Except.error e => ⟨[Event.logError "Fout bij parsen response: %s" [PyVal.str e]], PyVal.dict []⟩

/-- Result of usd_to_sats: the integer satoshi amount plus the log lines. -/
structure ConvResult where
  events : List Event
  value : ℤ

/-- Embedding of usd_to_sats (testscript.py lines 75 to 81): computes
int(round(usd_amount / btc_price * 1e8)).  A zero price raises
ZeroDivisionError and a non numeric argument raises TypeError, both caught
by the bare except which logs and returns 0.  A negative numeric price
raises nothing in Python, so the rounded (negative) value is returned. -/
def usd_to_sats (usd_amount btc_price : PyVal) : ConvResult :=
  match usd_amount, btc_price with
  | PyVal.num a, PyVal.num p =>
    if p = 0 then ⟨[Event.logError "Fout in usd_to_sats: %s" []], 0⟩
    else ⟨[], pyround (qmul (qdiv a p) 100000000)⟩
  | _, _ => ⟨[Event.logError "Fout in usd_to_sats: %s" []], 0⟩

/-- Result of get_ticker: the positive price, or none, plus the trace. -/
structure TickerResult where
  events : List Event
  price : Option ℚ

/-- Embedding of get_ticker (testscript.py lines 83 to 94): calls the
ticker endpoint (consuming the oracle response `resp`), normalizes the
response, reads lastPrice with default 0, converts it with float, and
raises on a non positive value; every exception in the block is caught,
logged and turned into the failure sentinel None. -/
def get_ticker (loads : PyVal → Except String PyVal) (resp : Except String PyVal) :
    TickerResult :=
  match resp with
  | Except.error e =>
    ⟨[Event.getTicker, Event.logError "Fout bij ophalen ticker: %s" [PyVal.str e]], Option.none⟩
  | Except.ok response =>
    let parsed := parse_response loads response
    match parsed.value with
    | PyVal.dict fs =>
      match pyFloat ((fs.lookup "lastPrice").getD (PyVal.num 0)) with
      | Option.none =>
        ⟨Event.getTicker :: parsed.events ++ [Event.logError "Fout bij ophalen ticker: %s" []],
          Option.none⟩
      | Option.some price =>
        if price ≤ 0 then
          ⟨Event.getTicker :: parsed.events ++ [Event.logError "Fout bij ophalen ticker: %s" []],
            Option.none⟩
        else ⟨Event.getTicker :: parsed.events, Option.some price⟩
    | _ =>
      ⟨Event.getTicker :: parsed.events ++ [Event.logError "Fout bij ophalen ticker: %s" []],
        Option.none⟩

/-- The request record of a market buy order (type m, side b), with the
optional takeprofit field appended exactly when one is passed. -/
def marketOrderParams (margin_sats leverage : ℤ) (takeprofit : Option ℤ) : PyVal :=
  PyVal.dict ([("type", PyVal.str "m"), ("side", PyVal.str "b"),
    ("margin", PyVal.num (margin_sats : ℚ)), ("leverage", PyVal.num (leverage : ℚ))] ++
    (match takeprofit with
     | Option.some tp => [("takeprofit", PyVal.num (tp : ℚ))]
     | Option.none => []))

/-- The request record of a limit buy order (type l, side b, price), with
the optional takeprofit field appended exactly when one is passed. -/
def limitOrderParams (margin_sats leverage price : ℤ) (takeprofit : Option ℤ) : PyVal :=
  PyVal.dict ([("type", PyVal.str "l"), ("side", PyVal.str "b"),
    ("margin", PyVal.num (margin_sats : ℚ)), ("leverage", PyVal.num (leverage : ℚ)),
    ("price", PyVal.num (price : ℚ))] ++
    (match takeprofit with
     | Option.some tp => [("takeprofit", PyVal.num (tp : ℚ))]
     | Option.none => []))

/-- Result of an order placement: the normalized order (None on failure)
plus the trace of the call. -/
structure OrderCall where
  events : List Event
  result : Option PyVal

/-- Embedding of place_market_buy_order (testscript.py lines 96 to 118):
builds the request record, submits it (consuming the oracle response
`resp`), normalizes the response and returns it exactly when the id field
is present and truthy; a transport error, a normalized response that is
not a dict (so that .get raises AttributeError), or a missing or falsy id
all yield None; every exception is caught inside the function. -/
def place_market_buy_order (loads : PyVal → Except String PyVal)
    (resp : Except String PyVal) (margin_sats leverage : ℤ) (takeprofit : Option ℤ) :
    OrderCall :=
  let params := marketOrderParams margin_sats leverage takeprofit
  match resp with
  | Except.error e =>
    ⟨[Event.logDebug "Orderparameters: %s" [params], Event.newTrade params,
      Event.logError "Fout bij plaatsen order: %s" [PyVal.str e]], Option.none⟩
  | Except.ok response =>
    let parsed := parse_response loads response
    match parsed.value with
    | PyVal.dict fs =>
      if truthy ((fs.lookup "id").getD PyVal.none) then
        ⟨[Event.logDebug "Orderparameters: %s" [params], Event.newTrade params] ++
          parsed.events ++
          [Event.logInfo "Order succesvol geplaatst: %s" [PyVal.dict fs]],
          Option.some (PyVal.dict fs)⟩
      else
        ⟨[Event.logDebug "Orderparameters: %s" [params], Event.newTrade params] ++
          parsed.events ++
          [Event.logError "Order mislukt: %s" [PyVal.dict fs]], Option.none⟩
    | _ =>
      ⟨[Event.logDebug "Orderparameters: %s" [params], Event.newTrade params] ++
        parsed.events ++
        [Event.logError "Fout bij plaatsen order: %s" []], Option.none⟩

/-- Embedding of place_limit_buy_order (testscript.py lines 120 to 143):
identical to the market variant except for the request record (limit type
and price field) and the log texts. -/
def place_limit_buy_order (loads : PyVal → Except String PyVal)
    (resp : Except String PyVal) (margin_sats leverage price : ℤ) (takeprofit : Option ℤ) :
    OrderCall :=
  let params := limitOrderParams margin_sats leverage price takeprofit
  match resp with
  | Except.error e =>
    ⟨[Event.logDebug "Orderparameters: %s" [params], Event.newTrade params,
      Event.logError "Fout bij plaatsen limietorder: %s" [PyVal.str e]], Option.none⟩
  | Except.ok response =>
    let parsed := parse_response loads response
    match parsed.value with
    | PyVal.dict fs =>
      if truthy ((fs.lookup "id").getD PyVal.none) then
        ⟨[Event.logDebug "Orderparameters: %s" [params], Event.newTrade params] ++
          parsed.events ++
          [Event.logInfo "Limietorder succesvol geplaatst: %s" [PyVal.dict fs]],
          Option.some (PyVal.dict fs)⟩
      else
        ⟨[Event.logDebug "Orderparameters: %s" [params], Event.newTrade params] ++
          parsed.events ++
          [Event.logError "Limietorder mislukt: %s" [PyVal.dict fs]], Option.none⟩
    | _ =>
      ⟨[Event.logDebug "Orderparameters: %s" [params], Event.newTrade params] ++
        parsed.events ++
        [Event.logError "Fout bij plaatsen limietorder: %s" []], Option.none⟩

/-- Embedding of set_take_profit (testscript.py lines 145 to 161): builds
the PUT record, submits it (consuming the oracle response `resp`), and
only logs the outcome; the Python function returns None on every path and
its bare except catches every exception, so the model returns the trace
alone and never emits a raised marker. -/
def set_take_profit (loads : PyVal → Except String PyVal) (resp : Except String PyVal)
    (trade_id : PyVal) (tp_price : ℤ) : List Event :=
  let params := PyVal.dict [("id", trade_id), ("type", PyVal.str "takeprofit"),
    ("value", PyVal.num (tp_price : ℚ))]
  match resp with
  | Except.error e =>
    [Event.logDebug "PUT request parameters voor take-profit: %s" [params],
      Event.updateTrade params, Event.logError "Fout bij instellen take-profit: %s" [PyVal.str e]]
  | Except.ok response =>
    let parsed := parse_response loads response
    match parsed.value with
    | PyVal.dict fs =>
      if truthy ((fs.lookup "id").getD PyVal.none) then
        [Event.logDebug "PUT request parameters voor take-profit: %s" [params],
          Event.updateTrade params] ++ parsed.events ++
          [Event.logInfo "Take-profit succesvol ingesteld: %s" [PyVal.dict fs]]
      else
        [Event.logDebug "PUT request parameters voor take-profit: %s" [params],
          Event.updateTrade params] ++ parsed.events ++
          [Event.logError "Take-profit instellen mislukt: %s" [PyVal.dict fs]]
    | _ =>
      [Event.logDebug "PUT request parameters voor take-profit: %s" [params],
        Event.updateTrade params] ++ parsed.events ++
        [Event.logError "Fout bij instellen take-profit: %s" []]

/-! ## The orchestration of main -/

/-- Global pause between API calls, in seconds (testscript.py line 11). -/
def REQUEST_DELAY : ℚ := 3

/-- Next oracle response; an exhausted oracle behaves as a transport error. -/
def headResp : List (Except String PyVal) → Except String PyVal
  | [] => Except.error "no response"
  | r :: _ => r

/-- Outcome of an inner step of main: its trace, the oracle responses still
unconsumed, and whether an uncaught exception ended the run. -/
structure StepOut where
  events : List Event
  rest : List (Except String PyVal)
  raised : Bool

/-- The body of the `if second_order:` block of the direct policy
(testscript.py lines 196 to 200): reads entry_price with the pre-trade
price as default and logs estimated against ideal take-profit.  The
attribute read or the arithmetic on a non numeric entry price raise an
exception that main does not catch. -/
def direct_second_log (market_price : ℚ) (tp_price : ℤ) (so : PyVal)
    (rs : List (Except String PyVal)) : StepOut :=
  match pyGet so "entry_price" (PyVal.num market_price) with
  | Except.error e => ⟨[Event.raised e], rs, true⟩
  | Except.ok ep =>
    match ep with
    | PyVal.num eq =>
      ⟨[Event.logInfo idealTpMsg
          [PyVal.num eq, PyVal.num (tp_price : ℚ),
            PyVal.num ((pyround (qmul eq (qdiv 101 100)) : ℚ))]], rs, false⟩
    | _ => ⟨[Event.raised "TypeError"], rs, true⟩

/-- The body of the `if second_order:` block of the deferred policy
(testscript.py lines 204 to 211): reads entry_price with no default; a
truthy numeric entry price leads to one set_take_profit call (consuming
one oracle response), a falsy one only logs an error, and a truthy non
numeric one raises out of main. -/
def deferred_second_tp (loads : PyVal → Except String PyVal)
    (rs : List (Except String PyVal)) (so : PyVal) : StepOut :=
  match pyGet so "entry_price" PyVal.none with
  | Except.error e => ⟨[Event.raised e], rs, true⟩
  | Except.ok ep =>
    if truthy ep then
      match ep with
      | PyVal.num eq =>
        let tp_price := pyround (qmul eq (qdiv 101 100))
        match pySub so "id" with
        | Except.error e =>
          ⟨[Event.logInfo "Take-profit ingesteld op %.0f (1%% boven entry_price %.2f)"
              [PyVal.num (tp_price : ℚ), PyVal.num eq], Event.raised e], rs, true⟩
        | Except.ok idv =>
          ⟨Event.logInfo "Take-profit ingesteld op %.0f (1%% boven entry_price %.2f)"
              [PyVal.num (tp_price : ℚ), PyVal.num eq] ::
            set_take_profit loads (headResp rs) idv tp_price, rs.tail, false⟩
      | _ => ⟨[Event.raised "TypeError"], rs, true⟩
    else ⟨[Event.logError "Entry_price niet gevonden voor tweede order." []], rs, false⟩

/-- The tail of main after the second order (testscript.py lines 213 to
228): abort when the second order is falsy, otherwise sleep, compute the
limit price 100 below the pre-trade price and its one percent take-profit,
place the limit order and log its outcome.  No sleep follows this third
placement; the function returns. -/
def after_second (loads : PyVal → Except String PyVal) (rs : List (Except String PyVal))
    (market_price : ℚ) (margin_sats : ℤ) (second_order : Option PyVal) : List Event :=
  match second_order with
  | Option.none => [Event.logError "Tweede order mislukt. Script wordt beëindigd." []]
  | Option.some so =>
    if truthy so = false then
      [Event.logError "Tweede order mislukt. Script wordt beëindigd." []]
    else
      Event.sleep REQUEST_DELAY ::
      Event.logInfo "Plaats test limiet kooporder voor $5 met hefboom 1" [] ::
      (let limit_price := pyround (qsub market_price 100)
       let limit_take_profit := pyround (qmul (limit_price : ℚ) (qdiv 101 100))
       let call3 := place_limit_buy_order loads (headResp rs) margin_sats 1 limit_price
         (Option.some limit_take_profit)
       call3.events ++
       (match call3.result with
        | Option.none => [Event.logError "Limietorder mislukt." []]
        | Option.some lo =>
          if truthy lo = false then [Event.logError "Limietorder mislukt." []]
          else
            [Event.logInfo "Limietorder succesvol geplaatst op prijs %.0f met take-profit %.0f"
              [PyVal.num ((pyround (qsub market_price 100) : ℚ)),
                PyVal.num ((pyround (qmul ((pyround (qsub market_price 100) : ℤ) : ℚ)
                  (qdiv 101 100)) : ℚ))]]))

namespace Testscript

/-- Embedding of main (testscript.py lines 164 to 228), parameterized by
the static policy flag USE_DIRECT_TAKE_PROFIT, the JSON deserializer and
the oracle list of REST responses.  Returns the complete event trace of
the run; a trace ending in a raised marker models an exception escaping
main. -/
def main (direct : Bool) (loads : PyVal → Except String PyVal)
    (rs : List (Except String PyVal)) : List Event :=
  let tick := get_ticker loads (headResp rs)
  tick.events ++
  (match tick.price with
   | Option.none => [Event.logError "Kan marktprijs niet ophalen. Script wordt beëindigd." []]
   | Option.some market_price =>
     if market_price = 0 then
       [Event.logError "Kan marktprijs niet ophalen. Script wordt beëindigd." []]
     else
       let conv := usd_to_sats (PyVal.num 5) (PyVal.num market_price)
       conv.events ++
       (let margin_sats := conv.value
        if margin_sats ≤ 0 then
          [Event.logError "Ongeldige margin berekend. Script wordt beëindigd." []]
        else
          Event.logInfo "Margin berekend: %d satoshis voor $%d bij prijs %.2f"
            [PyVal.num (margin_sats : ℚ), PyVal.num 5, PyVal.num market_price] ::
          Event.logInfo "Plaats eerste markt kooporder voor $5 met hefboom 1" [] ::
          (let call1 := place_market_buy_order loads (headResp rs.tail) margin_sats 1 Option.none
           call1.events ++
           (match call1.result with
            | Option.none => [Event.logError "Eerste order mislukt. Script wordt beëindigd." []]
            | Option.some fo =>
              if truthy fo = false then
                [Event.logError "Eerste order mislukt. Script wordt beëindigd." []]
              else
                Event.sleep REQUEST_DELAY ::
                Event.logInfo "Plaats tweede markt kooporder voor $5 met hefboom 1" [] ::
                (if direct then
                  let tp_price := pyround (qmul market_price (qdiv 101 100))
                  Event.logInfo
                    "Take-profit direct ingesteld op %.0f (1%% boven geschatte marktprijs %.2f)"
                    [PyVal.num (tp_price : ℚ), PyVal.num market_price] ::
                  (let call2 := place_market_buy_order loads (headResp rs.tail.tail)
                     margin_sats 1 (Option.some tp_price)
                   call2.events ++
                   (match call2.result with
                    | Option.none =>
                      after_second loads rs.tail.tail.tail market_price margin_sats Option.none
                    | Option.some so =>
                      if truthy so then
                        let step := direct_second_log market_price tp_price so rs.tail.tail.tail
                        step.events ++
                        (if step.raised then []
                         else after_second loads step.rest market_price margin_sats
                           (Option.some so))
                      else
                        after_second loads rs.tail.tail.tail market_price margin_sats
                          (Option.some so)))
                 else
                  let call2 := place_market_buy_order loads (headResp rs.tail.tail)
                    margin_sats 1 Option.none
                  call2.events ++
                  (match call2.result with
                   | Option.none =>
                     after_second loads rs.tail.tail.tail market_price margin_sats Option.none
                   | Option.some so =>
                     if truthy so then
                       let step := deferred_second_tp loads rs.tail.tail.tail so
                       step.events ++
                       (if step.raised then []
                        else after_second loads step.rest market_price margin_sats
                          (Option.some so))
                     else
                       after_second loads rs.tail.tail.tail market_price margin_sats
                         (Option.some so)))))))

end Testscript

/-- Whether a normalized order response counts as a success for the
script: it is a dictionary whose id field is present and truthy. -/
def hasTruthyId : PyVal → Bool
  | PyVal.dict fs => truthy ((fs.lookup "id").getD PyVal.none)
  | _ => false


/-! ## Bridge lemmas from the kernel arithmetic to the field operations -/

/-- Whether a value is a Python number. -/
def isNum : PyVal → Bool
  | PyVal.num _ => true
  | _ => false

/-- Whether a value is already structured (a dict or a list), so that
parse_response returns it unchanged. -/
def isStructured : PyVal → Bool
  | PyVal.dict _ => true
  | PyVal.list _ => true
  | _ => false

/-! ## Concrete scenarios used to exercise the theorems -/

/-- JSON deserializer oracle of the concrete scenarios; never consulted
because every scenario response is already structured. -/
def scenLoads : PyVal → Except String PyVal := fun _ => Except.error "niet gebruikt"

/-- Oracle responses of the fully successful end-to-end scenario of the
specification: ticker at 50000, three accepted orders, the second with
entry price 50010. -/
def scenResponses : List (Except String PyVal) :=
  [Except.ok (PyVal.dict [("lastPrice", PyVal.num 50000)]),
   Except.ok (PyVal.dict [("id", PyVal.str "a")]),
   Except.ok (PyVal.dict [("id", PyVal.str "b"), ("entry_price", PyVal.num 50010)]),
   Except.ok (PyVal.dict [("id", PyVal.str "c")])]

/-- Scenario in which the first order is rejected: the venue answers the
first placement with a record that has no id field. -/
def scenFirstFails : List (Except String PyVal) :=
  [Except.ok (PyVal.dict [("lastPrice", PyVal.num 50000)]),
   Except.ok (PyVal.dict [])]

/-- Scenario for the deferred policy in which the second order fill
carries no entry price. -/
def scenNoEntry : List (Except String PyVal) :=
  [Except.ok (PyVal.dict [("lastPrice", PyVal.num 50000)]),
   Except.ok (PyVal.dict [("id", PyVal.str "a")]),
   Except.ok (PyVal.dict [("id", PyVal.str "b")]),
   Except.ok (PyVal.dict [("id", PyVal.str "c")])]

/-- Scenario for the deferred policy in which the take-profit update call
raises a transport error; the run must still place the third order. -/
def scenUpdateFails : List (Except String PyVal) :=
  [Except.ok (PyVal.dict [("lastPrice", PyVal.num 50000)]),
   Except.ok (PyVal.dict [("id", PyVal.str "a")]),
   Except.ok (PyVal.dict [("id", PyVal.str "b"), ("entry_price", PyVal.num 50010)]),
   Except.error "update mislukt",
   Except.ok (PyVal.dict [("id", PyVal.str "c")])]

theorem qmul_eq (a b : ℚ) : qmul a b = a * b := by
  rw [qmul, Rat.mul_eq_mkRat, Rat.mkRat_eq_divInt]
  norm_cast

theorem qdiv_eq (a b : ℚ) : qdiv a b = a / b := (Rat.div_def' a b).symm

theorem qsub_eq (a b : ℚ) : qsub a b = a - b := by
  have ha : (a.den : ℤ) ≠ 0 := Int.natCast_ne_zero.mpr a.den_nz
  have hb : (b.den : ℤ) ≠ 0 := Int.natCast_ne_zero.mpr b.den_nz
  rw [qsub]
  conv_rhs => rw [← Rat.num_divInt_den a, ← Rat.num_divInt_den b]
  rw [Rat.divInt_sub_divInt _ _ ha hb]

theorem qadd_eq (a b : ℚ) : qadd a b = a + b := by
  have ha : (a.den : ℤ) ≠ 0 := Int.natCast_ne_zero.mpr a.den_nz
  have hb : (b.den : ℤ) ≠ 0 := Int.natCast_ne_zero.mpr b.den_nz
  rw [qadd]
  conv_rhs => rw [← Rat.num_divInt_den a, ← Rat.num_divInt_den b]
  rw [Rat.divInt_add_divInt _ _ ha hb]

/-! ## Basic facts about the embedded functions -/

theorem skeleton_nil : skeleton [] = [] := rfl

theorem skeleton_append (a b : List Event) : skeleton (a ++ b) = skeleton a ++ skeleton b :=
  List.filterMap_append a b tagOf

theorem skeleton_cons (e : Event) (l : List Event) :
    skeleton (e :: l) = Option.elim (tagOf e) (skeleton l) (fun t => t :: skeleton l) := by
  unfold skeleton
  rw [List.filterMap_cons]
  cases tagOf e <;> rfl

theorem skeleton_parse_response (loads : PyVal → Except String PyVal) (r : PyVal) :
    skeleton (parse_response loads r).events = [] := by
  unfold parse_response
  split
  · rfl
  · rfl
  · split <;> rfl

theorem skeleton_usd_to_sats (u b : PyVal) : skeleton (usd_to_sats u b).events = [] := by
  unfold usd_to_sats
  split
  · split <;> rfl
  · rfl

theorem skeleton_get_ticker (loads : PyVal → Except String PyVal)
    (r : Except String PyVal) : skeleton (get_ticker loads r).events = [] := by
  unfold get_ticker
  dsimp only
  split
  · rfl
  · split
    · split
      · simp [skeleton_cons, tagOf, skeleton_append, skeleton_parse_response, skeleton_nil]
      · split <;>
          simp [skeleton_cons, tagOf, skeleton_append, skeleton_parse_response, skeleton_nil]
    · simp [skeleton_cons, tagOf, skeleton_append, skeleton_parse_response, skeleton_nil]

theorem skeleton_place_market (loads : PyVal → Except String PyVal)
    (r : Except String PyVal) (m l : ℤ) (tp : Option ℤ) :
    skeleton (place_market_buy_order loads r m l tp).events = [CallTag.newT] := by
  unfold place_market_buy_order
  dsimp only
  split
  · rfl
  · split
    · split <;>
        simp [skeleton_cons, tagOf, skeleton_append, skeleton_parse_response, skeleton_nil]
    · simp [skeleton_cons, tagOf, skeleton_append, skeleton_parse_response, skeleton_nil]

theorem skeleton_place_limit (loads : PyVal → Except String PyVal)
    (r : Except String PyVal) (m l pr : ℤ) (tp : Option ℤ) :
    skeleton (place_limit_buy_order loads r m l pr tp).events = [CallTag.newT] := by
  unfold place_limit_buy_order
  dsimp only
  split
  · rfl
  · split
    · split <;>
        simp [skeleton_cons, tagOf, skeleton_append, skeleton_parse_response, skeleton_nil]
    · simp [skeleton_cons, tagOf, skeleton_append, skeleton_parse_response, skeleton_nil]

theorem skeleton_set_take_profit (loads : PyVal → Except String PyVal)
    (r : Except String PyVal) (tid : PyVal) (tp : ℤ) :
    skeleton (set_take_profit loads r tid tp) = [CallTag.updT] := by
  unfold set_take_profit
  dsimp only
  split
  · rfl
  · split
    · split <;>
        simp [skeleton_cons, tagOf, skeleton_append, skeleton_parse_response, skeleton_nil]
    · simp [skeleton_cons, tagOf, skeleton_append, skeleton_parse_response, skeleton_nil]

theorem skeleton_direct_second_log (p : ℚ) (tp : ℤ) (so : PyVal)
    (rs : List (Except String PyVal)) :
    skeleton (direct_second_log p tp so rs).events = [] := by
  unfold direct_second_log
  split
  · rfl
  · split <;> rfl

theorem skeleton_deferred_second_tp (loads : PyVal → Except String PyVal)
    (rs : List (Except String PyVal)) (so : PyVal) :
    skeleton (deferred_second_tp loads rs so).events = [] ∨
    skeleton (deferred_second_tp loads rs so).events = [CallTag.updT] := by
  unfold deferred_second_tp
  dsimp only
  split
  · exact Or.inl rfl
  · split
    · split
      · split
        · exact Or.inl rfl
        · exact Or.inr (by
            simp [skeleton_cons, tagOf, skeleton_set_take_profit])
      · exact Or.inl rfl
    · exact Or.inl rfl

theorem skeleton_after_second (loads : PyVal → Except String PyVal)
    (rs : List (Except String PyVal)) (p : ℚ) (m : ℤ) (so : Option PyVal) :
    skeleton (after_second loads rs p m so) = [] ∨
    skeleton (after_second loads rs p m so) = [CallTag.sleepT REQUEST_DELAY, CallTag.newT] := by
  unfold after_second
  dsimp only
  split
  · exact Or.inl rfl
  · split
    · exact Or.inl rfl
    · refine Or.inr ?_
      rw [skeleton_cons, skeleton_cons]
      simp only [tagOf, Option.elim]
      rw [skeleton_append, skeleton_place_limit]
      split
      · rfl
      · split <;> rfl

theorem place_market_result_characterization (loads : PyVal → Except String PyVal)
    (resp : Except String PyVal) (m l : ℤ) (tp : Option ℤ) :
    (place_market_buy_order loads resp m l tp).result =
      (match resp with
       | Except.ok r =>
         if hasTruthyId (parse_response loads r).value then
           Option.some (parse_response loads r).value
         else Option.none
       | Except.error _ => Option.none) := by
  unfold place_market_buy_order
  cases resp with
  | error e => rfl
  | ok r =>
    dsimp only
    cases hv : (parse_response loads r).value with
    | dict fs =>
      dsimp only [hasTruthyId]
      split <;> rfl
    | none => rfl
    | num q => rfl
    | str s => rfl
    | list xs => rfl

theorem place_limit_result_characterization (loads : PyVal → Except String PyVal)
    (resp : Except String PyVal) (m l pr : ℤ) (tp : Option ℤ) :
    (place_limit_buy_order loads resp m l pr tp).result =
      (match resp with
       | Except.ok r =>
         if hasTruthyId (parse_response loads r).value then
           Option.some (parse_response loads r).value
         else Option.none
       | Except.error _ => Option.none) := by
  unfold place_limit_buy_order
  cases resp with
  | error e => rfl
  | ok r =>
    dsimp only
    cases hv : (parse_response loads r).value with
    | dict fs =>
      dsimp only [hasTruthyId]
      split <;> rfl
    | none => rfl
    | num q => rfl
    | str s => rfl
    | list xs => rfl

theorem truthy_of_hasTruthyId {v : PyVal} (h : hasTruthyId v = true) :
    truthy v = true ∧
    ∃ fs, v = PyVal.dict fs ∧ ∃ idv, fs.lookup "id" = Option.some idv ∧ truthy idv = true := by
  cases v with
  | dict fs =>
    dsimp only [hasTruthyId] at h
    cases hl : fs.lookup "id" with
    | none => rw [hl] at h; simp [truthy] at h
    | some idv =>
      rw [hl] at h
      have hne : fs ≠ [] := by
        intro hnil
        subst hnil
        simp at hl
      constructor
      · simp [truthy, List.isEmpty_iff, hne]
      · exact ⟨fs, rfl, idv, hl, by simpa using h⟩
  | none => simp [hasTruthyId] at h
  | num q => simp [hasTruthyId] at h
  | str s => simp [hasTruthyId] at h
  | list xs => simp [hasTruthyId] at h

theorem place_market_result_some (loads : PyVal → Except String PyVal)
    (resp : Except String PyVal) (m l : ℤ) (tp : Option ℤ) (o : PyVal)
    (h : (place_market_buy_order loads resp m l tp).result = Option.some o) :
    truthy o = true ∧
    ∃ fs, o = PyVal.dict fs ∧ ∃ idv, fs.lookup "id" = Option.some idv ∧ truthy idv = true := by
  rw [place_market_result_characterization] at h
  cases resp with
  | error e => simp at h
  | ok r =>
    dsimp only at h
    by_cases htr : hasTruthyId (parse_response loads r).value = true
    · rw [if_pos htr] at h
      have ho : o = (parse_response loads r).value := by
        injection h with h1
        exact h1.symm
      subst ho
      exact truthy_of_hasTruthyId htr
    · rw [if_neg htr] at h
      simp at h

theorem place_limit_result_some (loads : PyVal → Except String PyVal)
    (resp : Except String PyVal) (m l pr : ℤ) (tp : Option ℤ) (o : PyVal)
    (h : (place_limit_buy_order loads resp m l pr tp).result = Option.some o) :
    truthy o = true := by
  rw [place_limit_result_characterization] at h
  cases resp with
  | error e => simp at h
  | ok r =>
    dsimp only at h
    by_cases htr : hasTruthyId (parse_response loads r).value = true
    · rw [if_pos htr] at h
      have ho : o = (parse_response loads r).value := by
        injection h with h1
        exact h1.symm
      subst ho
      exact (truthy_of_hasTruthyId htr).1
    · rw [if_neg htr] at h
      simp at h

theorem get_ticker_price_pos (loads : PyVal → Except String PyVal)
    (r : Except String PyVal) (p : ℚ)
    (h : (get_ticker loads r).price = Option.some p) : 0 < p := by
  unfold get_ticker at h
  dsimp only at h
  split at h
  · exact absurd h (by simp)
  · split at h
    · split at h
      · exact absurd h (by simp)
      · split at h
        · exact absurd h (by simp)
        · dsimp only at h
          injection h with h1
          subst h1
          exact lt_of_not_le (by assumption)
    · exact absurd h (by simp)

theorem skeleton_after_second_none (loads : PyVal → Except String PyVal)
    (rs : List (Except String PyVal)) (p : ℚ) (m : ℤ) :
    skeleton (after_second loads rs p m Option.none) = [] := rfl

theorem skeleton_after_second_falsy (loads : PyVal → Except String PyVal)
    (rs : List (Except String PyVal)) (p : ℚ) (m : ℤ) (so : PyVal)
    (h : truthy so = false) :
    skeleton (after_second loads rs p m (Option.some so)) = [] := by
  unfold after_second
  dsimp only
  rw [if_pos h]
  rfl

theorem skeleton_after_second_truthy (loads : PyVal → Except String PyVal)
    (rs : List (Except String PyVal)) (p : ℚ) (m : ℤ) (so : PyVal)
    (h : truthy so = true) :
    skeleton (after_second loads rs p m (Option.some so)) =
      [CallTag.sleepT REQUEST_DELAY, CallTag.newT] := by
  unfold after_second
  dsimp only
  rw [if_neg (by simp [h])]
  rw [skeleton_cons, skeleton_cons]
  simp only [tagOf, Option.elim]
  rw [skeleton_append, skeleton_place_limit]
  split
  · rfl
  · split <;> rfl

theorem deferred_second_tp_cases (loads : PyVal → Except String PyVal)
    (rs : List (Except String PyVal)) (so : PyVal) :
    ((deferred_second_tp loads rs so).raised = true ∧
      skeleton (deferred_second_tp loads rs so).events = []) ∨
    ((deferred_second_tp loads rs so).raised = false ∧
      skeleton (deferred_second_tp loads rs so).events = []) ∨
    ((deferred_second_tp loads rs so).raised = false ∧
      skeleton (deferred_second_tp loads rs so).events = [CallTag.updT]) := by
  unfold deferred_second_tp
  dsimp only
  split
  · exact Or.inl ⟨rfl, rfl⟩
  · split
    · split
      · split
        · exact Or.inl ⟨rfl, rfl⟩
        · refine Or.inr (Or.inr ⟨rfl, ?_⟩)
          simp [skeleton_cons, tagOf, skeleton_set_take_profit]
      · exact Or.inl ⟨rfl, rfl⟩
    · exact Or.inr (Or.inl ⟨rfl, rfl⟩)

/-- Every possible pacing skeleton of a run of main: no placement at all,
one failed placement, two placements (the second failing or the run dying
on an uncaught exception), the full direct run with three placements, or
the full deferred run with the extra update call; each sleep is the fixed
REQUEST_DELAY and no sleep ever follows the third placement. -/
theorem main_skeleton_cases (direct : Bool) (loads : PyVal → Except String PyVal)
    (rs : List (Except String PyVal)) :
    skeleton (Testscript.main direct loads rs) = [] ∨
    skeleton (Testscript.main direct loads rs) = [CallTag.newT] ∨
    skeleton (Testscript.main direct loads rs) =
      [CallTag.newT, CallTag.sleepT REQUEST_DELAY, CallTag.newT] ∨
    skeleton (Testscript.main direct loads rs) =
      [CallTag.newT, CallTag.sleepT REQUEST_DELAY, CallTag.newT,
        CallTag.sleepT REQUEST_DELAY, CallTag.newT] ∨
    (direct = false ∧
      skeleton (Testscript.main direct loads rs) =
        [CallTag.newT, CallTag.sleepT REQUEST_DELAY, CallTag.newT, CallTag.updT,
          CallTag.sleepT REQUEST_DELAY, CallTag.newT]) := by
  unfold Testscript.main
  dsimp only
  rw [skeleton_append, skeleton_get_ticker, List.nil_append]
  cases hmp : (get_ticker loads (headResp rs)).price with
  | none => exact Or.inl rfl
  | some p =>
    dsimp only
    by_cases hp : p = 0
    · rw [if_pos hp]
      exact Or.inl rfl
    · rw [if_neg hp]
      rw [skeleton_append, skeleton_usd_to_sats, List.nil_append]
      by_cases hm : (usd_to_sats (PyVal.num 5) (PyVal.num p)).value ≤ 0
      · rw [if_pos hm]
        exact Or.inl rfl
      · rw [if_neg hm]
        rw [skeleton_cons, skeleton_cons]
        simp only [tagOf, Option.elim]
        rw [skeleton_append, skeleton_place_market]
        cases h1 : (place_market_buy_order loads (headResp rs.tail)
            (usd_to_sats (PyVal.num 5) (PyVal.num p)).value 1 Option.none).result with
        | none => exact Or.inr (Or.inl rfl)
        | some fo =>
          dsimp only
          by_cases hfo : truthy fo = false
          · rw [if_pos hfo]
            exact Or.inr (Or.inl rfl)
          · rw [if_neg hfo]
            rw [skeleton_cons, skeleton_cons]
            simp only [tagOf, Option.elim]
            by_cases hdir : direct = true
            · rw [if_pos hdir]
              rw [skeleton_cons]
              simp only [tagOf, Option.elim]
              rw [skeleton_append, skeleton_place_market]
              cases h2 : (place_market_buy_order loads (headResp rs.tail.tail)
                  (usd_to_sats (PyVal.num 5) (PyVal.num p)).value 1
                  (Option.some (pyround (qmul p (qdiv 101 100))))).result with
              | none =>
                rw [skeleton_after_second_none]
                exact Or.inr (Or.inr (Or.inl (by simp [skeleton_nil])))
              | some so =>
                dsimp only
                by_cases hso : truthy so = true
                · rw [if_pos hso]
                  rw [skeleton_append, skeleton_direct_second_log]
                  by_cases hraised : (direct_second_log p
                      (pyround (qmul p (qdiv 101 100))) so rs.tail.tail.tail).raised = true
                  · rw [if_pos hraised]
                    exact Or.inr (Or.inr (Or.inl (by simp [skeleton_nil])))
                  · rw [if_neg hraised]
                    rw [skeleton_after_second_truthy _ _ _ _ _ hso]
                    exact Or.inr (Or.inr (Or.inr (Or.inl (by simp [skeleton_nil]))))
                · rw [if_neg hso]
                  rw [skeleton_after_second_falsy _ _ _ _ _ (by simpa using hso)]
                  exact Or.inr (Or.inr (Or.inl (by simp [skeleton_nil])))
            · rw [if_neg hdir]
              rw [skeleton_append, skeleton_place_market]
              cases h2 : (place_market_buy_order loads (headResp rs.tail.tail)
                  (usd_to_sats (PyVal.num 5) (PyVal.num p)).value 1 Option.none).result with
              | none =>
                rw [skeleton_after_second_none]
                exact Or.inr (Or.inr (Or.inl (by simp [skeleton_nil])))
              | some so =>
                dsimp only
                by_cases hso : truthy so = true
                · rw [if_pos hso]
                  rcases deferred_second_tp_cases loads rs.tail.tail.tail so with
                    ⟨hr, hsk⟩ | ⟨hr, hsk⟩ | ⟨hr, hsk⟩
                  · rw [skeleton_append, hsk, if_pos hr]
                    exact Or.inr (Or.inr (Or.inl (by simp [skeleton_nil])))
                  · rw [skeleton_append, hsk, if_neg (by simp [hr])]
                    rw [skeleton_after_second_truthy _ _ _ _ _ hso]
                    exact Or.inr (Or.inr (Or.inr (Or.inl (by simp [skeleton_nil]))))
                  · rw [skeleton_append, hsk, if_neg (by simp [hr])]
                    rw [skeleton_after_second_truthy _ _ _ _ _ hso]
                    exact Or.inr (Or.inr (Or.inr (Or.inr
                      ⟨by simpa using hdir, by simp [skeleton_nil]⟩)))
                · rw [if_neg hso]
                  rw [skeleton_after_second_falsy _ _ _ _ _ (by simpa using hso)]
                  exact Or.inr (Or.inr (Or.inl (by simp [skeleton_nil])))

/-! ## Facts about the order placement parameters in a trace -/

theorem newTradeParams_nil : newTradeParams [] = [] := rfl

theorem newTradeParams_append (a b : List Event) :
    newTradeParams (a ++ b) = newTradeParams a ++ newTradeParams b :=
  List.filterMap_append a b _

theorem newTradeParams_cons (e : Event) (l : List Event) :
    newTradeParams (e :: l) =
      (match e with
       | Event.newTrade p => [p]
       | _ => []) ++ newTradeParams l := by
  cases e <;> rfl

theorem newTradeParams_parse_response (loads : PyVal → Except String PyVal) (r : PyVal) :
    newTradeParams (parse_response loads r).events = [] := by
  unfold parse_response
  split
  · rfl
  · rfl
  · split <;> rfl

theorem newTradeParams_usd_to_sats (u b : PyVal) :
    newTradeParams (usd_to_sats u b).events = [] := by
  unfold usd_to_sats
  split
  · split <;> rfl
  · rfl

theorem newTradeParams_get_ticker (loads : PyVal → Except String PyVal)
    (r : Except String PyVal) : newTradeParams (get_ticker loads r).events = [] := by
  unfold get_ticker
  dsimp only
  split
  · rfl
  · split
    · split
      · simp [newTradeParams_cons, newTradeParams_append, newTradeParams_parse_response,
          newTradeParams_nil]
      · split <;>
          simp [newTradeParams_cons, newTradeParams_append, newTradeParams_parse_response,
            newTradeParams_nil]
    · simp [newTradeParams_cons, newTradeParams_append, newTradeParams_parse_response,
        newTradeParams_nil]

theorem newTradeParams_place_market (loads : PyVal → Except String PyVal)
    (r : Except String PyVal) (m l : ℤ) (tp : Option ℤ) :
    newTradeParams (place_market_buy_order loads r m l tp).events =
      [marketOrderParams m l tp] := by
  unfold place_market_buy_order
  dsimp only
  split
  · rfl
  · split
    · split <;>
        simp [newTradeParams_cons, newTradeParams_append, newTradeParams_parse_response,
          newTradeParams_nil]
    · simp [newTradeParams_cons, newTradeParams_append, newTradeParams_parse_response,
        newTradeParams_nil]

theorem newTradeParams_place_limit (loads : PyVal → Except String PyVal)
    (r : Except String PyVal) (m l pr : ℤ) (tp : Option ℤ) :
    newTradeParams (place_limit_buy_order loads r m l pr tp).events =
      [limitOrderParams m l pr tp] := by
  unfold place_limit_buy_order
  dsimp only
  split
  · rfl
  · split
    · split <;>
        simp [newTradeParams_cons, newTradeParams_append, newTradeParams_parse_response,
          newTradeParams_nil]
    · simp [newTradeParams_cons, newTradeParams_append, newTradeParams_parse_response,
        newTradeParams_nil]

theorem newTradeParams_set_take_profit (loads : PyVal → Except String PyVal)
    (r : Except String PyVal) (tid : PyVal) (tp : ℤ) :
    newTradeParams (set_take_profit loads r tid tp) = [] := by
  unfold set_take_profit
  dsimp only
  split
  · rfl
  · split
    · split <;>
        simp [newTradeParams_cons, newTradeParams_append, newTradeParams_parse_response,
          newTradeParams_nil]
    · simp [newTradeParams_cons, newTradeParams_append, newTradeParams_parse_response,
        newTradeParams_nil]

theorem newTradeParams_direct_second_log (p : ℚ) (tp : ℤ) (so : PyVal)
    (rs : List (Except String PyVal)) :
    newTradeParams (direct_second_log p tp so rs).events = [] := by
  unfold direct_second_log
  split
  · rfl
  · split <;> rfl

theorem newTradeParams_deferred_second_tp (loads : PyVal → Except String PyVal)
    (rs : List (Except String PyVal)) (so : PyVal) :
    newTradeParams (deferred_second_tp loads rs so).events = [] := by
  unfold deferred_second_tp
  dsimp only
  split
  · rfl
  · split
    · split
      · split
        · rfl
        · simp [newTradeParams_cons, newTradeParams_set_take_profit]
      · rfl
    · rfl

/-! ## Trace shapes of main under explicit step outcomes -/

theorem main_trace_ticker_none (direct : Bool) (loads : PyVal → Except String PyVal)
    (rs : List (Except String PyVal))
    (h : (get_ticker loads (headResp rs)).price = Option.none) :
    Testscript.main direct loads rs =
      (get_ticker loads (headResp rs)).events ++
        [Event.logError "Kan marktprijs niet ophalen. Script wordt beëindigd." []] := by
  unfold Testscript.main
  dsimp only
  rw [h]

theorem main_trace_margin_nonpos (direct : Bool) (loads : PyVal → Except String PyVal)
    (rs : List (Except String PyVal)) (p : ℚ)
    (hp : (get_ticker loads (headResp rs)).price = Option.some p)
    (hm : (usd_to_sats (PyVal.num 5) (PyVal.num p)).value ≤ 0) :
    Testscript.main direct loads rs =
      (get_ticker loads (headResp rs)).events ++
        ((usd_to_sats (PyVal.num 5) (PyVal.num p)).events ++
          [Event.logError "Ongeldige margin berekend. Script wordt beëindigd." []]) := by
  have hppos : 0 < p := get_ticker_price_pos loads (headResp rs) p hp
  unfold Testscript.main
  dsimp only
  rw [hp]
  dsimp only
  rw [if_neg (ne_of_gt hppos), if_pos hm]

theorem main_trace_first_fails (direct : Bool) (loads : PyVal → Except String PyVal)
    (rs : List (Except String PyVal)) (p : ℚ)
    (hp : (get_ticker loads (headResp rs)).price = Option.some p)
    (hm : 0 < (usd_to_sats (PyVal.num 5) (PyVal.num p)).value)
    (h1 : (place_market_buy_order loads (headResp rs.tail)
      (usd_to_sats (PyVal.num 5) (PyVal.num p)).value 1 Option.none).result = Option.none) :
    Testscript.main direct loads rs =
      (get_ticker loads (headResp rs)).events ++
        ((usd_to_sats (PyVal.num 5) (PyVal.num p)).events ++
          (Event.logInfo "Margin berekend: %d satoshis voor $%d bij prijs %.2f"
              [PyVal.num ((usd_to_sats (PyVal.num 5) (PyVal.num p)).value : ℚ),
                PyVal.num 5, PyVal.num p] ::
            Event.logInfo "Plaats eerste markt kooporder voor $5 met hefboom 1" [] ::
            ((place_market_buy_order loads (headResp rs.tail)
                (usd_to_sats (PyVal.num 5) (PyVal.num p)).value 1 Option.none).events ++
              [Event.logError "Eerste order mislukt. Script wordt beëindigd." []]))) := by
  have hppos : 0 < p := get_ticker_price_pos loads (headResp rs) p hp
  unfold Testscript.main
  dsimp only
  rw [hp]
  dsimp only
  rw [if_neg (ne_of_gt hppos), if_neg (not_le_of_lt hm), h1]

theorem main_trace_second_fails (direct : Bool) (loads : PyVal → Except String PyVal)
    (rs : List (Except String PyVal)) (p : ℚ) (o1 : PyVal)
    (hp : (get_ticker loads (headResp rs)).price = Option.some p)
    (hm : 0 < (usd_to_sats (PyVal.num 5) (PyVal.num p)).value)
    (h1 : (place_market_buy_order loads (headResp rs.tail)
      (usd_to_sats (PyVal.num 5) (PyVal.num p)).value 1 Option.none).result = Option.some o1)
    (h2 : (place_market_buy_order loads (headResp rs.tail.tail)
      (usd_to_sats (PyVal.num 5) (PyVal.num p)).value 1
      (if direct then Option.some (pyround (qmul p (qdiv 101 100))) else Option.none)).result =
      Option.none) :
    Testscript.main direct loads rs =
      (get_ticker loads (headResp rs)).events ++
        ((usd_to_sats (PyVal.num 5) (PyVal.num p)).events ++
          (Event.logInfo "Margin berekend: %d satoshis voor $%d bij prijs %.2f"
              [PyVal.num ((usd_to_sats (PyVal.num 5) (PyVal.num p)).value : ℚ),
                PyVal.num 5, PyVal.num p] ::
            Event.logInfo "Plaats eerste markt kooporder voor $5 met hefboom 1" [] ::
            ((place_market_buy_order loads (headResp rs.tail)
                (usd_to_sats (PyVal.num 5) (PyVal.num p)).value 1 Option.none).events ++
              (Event.sleep REQUEST_DELAY ::
                Event.logInfo "Plaats tweede markt kooporder voor $5 met hefboom 1" [] ::
                ((if direct then
                    [Event.logInfo
                      "Take-profit direct ingesteld op %.0f (1%% boven geschatte marktprijs %.2f)"
                      [PyVal.num ((pyround (qmul p (qdiv 101 100)) : ℚ)), PyVal.num p]]
                  else []) ++
                  ((place_market_buy_order loads (headResp rs.tail.tail)
                      (usd_to_sats (PyVal.num 5) (PyVal.num p)).value 1
                      (if direct then Option.some (pyround (qmul p (qdiv 101 100)))
                       else Option.none)).events ++
                    [Event.logError "Tweede order mislukt. Script wordt beëindigd." []])))))) := by
  have hppos : 0 < p := get_ticker_price_pos loads (headResp rs) p hp
  have htruthy : truthy o1 = true :=
    (place_market_result_some loads (headResp rs.tail) _ 1 Option.none o1 h1).1
  unfold Testscript.main
  dsimp only
  rw [hp]
  dsimp only
  rw [if_neg (ne_of_gt hppos), if_neg (not_le_of_lt hm), h1]
  dsimp only
  rw [if_neg (by simp [htruthy])]
  cases direct with
  | true =>
    try simp only [reduceIte] at h2 ⊢
    rw [h2]
    rfl
  | false =>
    simp at h2
    rw [h2]
    rfl

theorem deferred_step_entry_missing (loads : PyVal → Except String PyVal)
    (rs : List (Except String PyVal)) (fs : List (String × PyVal))
    (hent : fs.lookup "entry_price" = Option.none) :
    deferred_second_tp loads rs (PyVal.dict fs) =
      ⟨[Event.logError "Entry_price niet gevonden voor tweede order." []], rs, false⟩ := by
  unfold deferred_second_tp
  simp only [pyGet, hent]
  rfl

theorem deferred_step_entry_present (loads : PyVal → Except String PyVal)
    (rs : List (Except String PyVal)) (fs : List (String × PyVal)) (e : ℚ) (idv : PyVal)
    (hent : fs.lookup "entry_price" = Option.some (PyVal.num e)) (he : e ≠ 0)
    (hid : fs.lookup "id" = Option.some idv) :
    deferred_second_tp loads rs (PyVal.dict fs) =
      ⟨Event.logInfo "Take-profit ingesteld op %.0f (1%% boven entry_price %.2f)"
          [PyVal.num ((pyround (qmul e (qdiv 101 100)) : ℚ)), PyVal.num e] ::
        set_take_profit loads (headResp rs) idv (pyround (qmul e (qdiv 101 100))),
        rs.tail, false⟩ := by
  unfold deferred_second_tp
  simp only [pyGet, hent, pySub, hid]
  try dsimp only
  rw [if_pos (by simp [truthy, he])]
  rfl

theorem main_trace_deferred_entry_missing (loads : PyVal → Except String PyVal)
    (rs : List (Except String PyVal)) (p : ℚ) (o1 : PyVal) (fs : List (String × PyVal))
    (hp : (get_ticker loads (headResp rs)).price = Option.some p)
    (hm : 0 < (usd_to_sats (PyVal.num 5) (PyVal.num p)).value)
    (h1 : (place_market_buy_order loads (headResp rs.tail)
      (usd_to_sats (PyVal.num 5) (PyVal.num p)).value 1 Option.none).result = Option.some o1)
    (h2 : (place_market_buy_order loads (headResp rs.tail.tail)
      (usd_to_sats (PyVal.num 5) (PyVal.num p)).value 1 Option.none).result =
      Option.some (PyVal.dict fs))
    (hent : fs.lookup "entry_price" = Option.none) :
    Testscript.main false loads rs =
      (get_ticker loads (headResp rs)).events ++
        ((usd_to_sats (PyVal.num 5) (PyVal.num p)).events ++
          (Event.logInfo "Margin berekend: %d satoshis voor $%d bij prijs %.2f"
              [PyVal.num ((usd_to_sats (PyVal.num 5) (PyVal.num p)).value : ℚ),
                PyVal.num 5, PyVal.num p] ::
            Event.logInfo "Plaats eerste markt kooporder voor $5 met hefboom 1" [] ::
            ((place_market_buy_order loads (headResp rs.tail)
                (usd_to_sats (PyVal.num 5) (PyVal.num p)).value 1 Option.none).events ++
              (Event.sleep REQUEST_DELAY ::
                Event.logInfo "Plaats tweede markt kooporder voor $5 met hefboom 1" [] ::
                ((place_market_buy_order loads (headResp rs.tail.tail)
                    (usd_to_sats (PyVal.num 5) (PyVal.num p)).value 1 Option.none).events ++
                  (Event.logError "Entry_price niet gevonden voor tweede order." [] ::
                    after_second loads rs.tail.tail.tail p
                      (usd_to_sats (PyVal.num 5) (PyVal.num p)).value
                      (Option.some (PyVal.dict fs)))))))) := by
  have hppos : 0 < p := get_ticker_price_pos loads (headResp rs) p hp
  have htruthy : truthy o1 = true :=
    (place_market_result_some loads (headResp rs.tail) _ 1 Option.none o1 h1).1
  have htruthy2 : truthy (PyVal.dict fs) = true :=
    (place_market_result_some loads (headResp rs.tail.tail) _ 1 Option.none _ h2).1
  unfold Testscript.main
  dsimp only
  rw [hp]
  dsimp only
  rw [if_neg (ne_of_gt hppos), if_neg (not_le_of_lt hm), h1]
  dsimp only
  rw [if_neg (by simp [htruthy])]
  simp only [Bool.false_eq_true, reduceIte]
  rw [h2]
  dsimp only
  rw [if_pos htruthy2]
  rw [deferred_step_entry_missing loads rs.tail.tail.tail fs hent]
  dsimp only
  rw [if_neg Bool.false_ne_true]
  rfl

theorem main_trace_deferred_entry_present (loads : PyVal → Except String PyVal)
    (rs : List (Except String PyVal)) (p : ℚ) (o1 : PyVal) (fs : List (String × PyVal))
    (e : ℚ) (idv : PyVal)
    (hp : (get_ticker loads (headResp rs)).price = Option.some p)
    (hm : 0 < (usd_to_sats (PyVal.num 5) (PyVal.num p)).value)
    (h1 : (place_market_buy_order loads (headResp rs.tail)
      (usd_to_sats (PyVal.num 5) (PyVal.num p)).value 1 Option.none).result = Option.some o1)
    (h2 : (place_market_buy_order loads (headResp rs.tail.tail)
      (usd_to_sats (PyVal.num 5) (PyVal.num p)).value 1 Option.none).result =
      Option.some (PyVal.dict fs))
    (hent : fs.lookup "entry_price" = Option.some (PyVal.num e)) (he : e ≠ 0)
    (hid : fs.lookup "id" = Option.some idv) :
    Testscript.main false loads rs =
      (get_ticker loads (headResp rs)).events ++
        ((usd_to_sats (PyVal.num 5) (PyVal.num p)).events ++
          (Event.logInfo "Margin berekend: %d satoshis voor $%d bij prijs %.2f"
              [PyVal.num ((usd_to_sats (PyVal.num 5) (PyVal.num p)).value : ℚ),
                PyVal.num 5, PyVal.num p] ::
            Event.logInfo "Plaats eerste markt kooporder voor $5 met hefboom 1" [] ::
            ((place_market_buy_order loads (headResp rs.tail)
                (usd_to_sats (PyVal.num 5) (PyVal.num p)).value 1 Option.none).events ++
              (Event.sleep REQUEST_DELAY ::
                Event.logInfo "Plaats tweede markt kooporder voor $5 met hefboom 1" [] ::
                ((place_market_buy_order loads (headResp rs.tail.tail)
                    (usd_to_sats (PyVal.num 5) (PyVal.num p)).value 1 Option.none).events ++
                  (Event.logInfo "Take-profit ingesteld op %.0f (1%% boven entry_price %.2f)"
                      [PyVal.num ((pyround (qmul e (qdiv 101 100)) : ℚ)), PyVal.num e] ::
                    (set_take_profit loads (headResp rs.tail.tail.tail) idv
                        (pyround (qmul e (qdiv 101 100))) ++
                      after_second loads rs.tail.tail.tail.tail p
                        (usd_to_sats (PyVal.num 5) (PyVal.num p)).value
                        (Option.some (PyVal.dict fs)))))))))  := by
  have hppos : 0 < p := get_ticker_price_pos loads (headResp rs) p hp
  have htruthy : truthy o1 = true :=
    (place_market_result_some loads (headResp rs.tail) _ 1 Option.none o1 h1).1
  have htruthy2 : truthy (PyVal.dict fs) = true :=
    (place_market_result_some loads (headResp rs.tail.tail) _ 1 Option.none _ h2).1
  unfold Testscript.main
  dsimp only
  rw [hp]
  dsimp only
  rw [if_neg (ne_of_gt hppos), if_neg (not_le_of_lt hm), h1]
  dsimp only
  rw [if_neg (by simp [htruthy])]
  simp only [Bool.false_eq_true, reduceIte]
  rw [h2]
  dsimp only
  rw [if_pos htruthy2]
  rw [deferred_step_entry_present loads rs.tail.tail.tail fs e idv hent he hid]
  dsimp only
  rw [if_neg Bool.false_ne_true]
  rfl

theorem main_direct_second_params (loads : PyVal → Except String PyVal)
    (rs : List (Except String PyVal)) (p : ℚ) (o1 : PyVal)
    (hp : (get_ticker loads (headResp rs)).price = Option.some p)
    (hm : 0 < (usd_to_sats (PyVal.num 5) (PyVal.num p)).value)
    (h1 : (place_market_buy_order loads (headResp rs.tail)
      (usd_to_sats (PyVal.num 5) (PyVal.num p)).value 1 Option.none).result = Option.some o1) :
    (newTradeParams (Testscript.main true loads rs))[0]? =
      Option.some (marketOrderParams (usd_to_sats (PyVal.num 5) (PyVal.num p)).value 1
        Option.none) ∧
    (newTradeParams (Testscript.main true loads rs))[1]? =
      Option.some (marketOrderParams (usd_to_sats (PyVal.num 5) (PyVal.num p)).value 1
        (Option.some (pyround (qmul p (qdiv 101 100))))) := by
  have hppos : 0 < p := get_ticker_price_pos loads (headResp rs) p hp
  have htruthy : truthy o1 = true :=
    (place_market_result_some loads (headResp rs.tail) _ 1 Option.none o1 h1).1
  unfold Testscript.main
  dsimp only
  rw [hp]
  dsimp only
  rw [if_neg (ne_of_gt hppos), if_neg (not_le_of_lt hm), h1]
  dsimp only
  rw [if_neg (by simp [htruthy])]
  simp only [reduceIte]
  rw [newTradeParams_append, newTradeParams_get_ticker,
    newTradeParams_append, newTradeParams_usd_to_sats,
    newTradeParams_cons, newTradeParams_cons,
    newTradeParams_append, newTradeParams_place_market,
    newTradeParams_cons, newTradeParams_cons, newTradeParams_cons,
    newTradeParams_append, newTradeParams_place_market]
  simp

theorem main_direct_no_update (loads : PyVal → Except String PyVal)
    (rs : List (Except String PyVal)) :
    numUpdateTrades (Testscript.main true loads rs) = 0 := by
  rcases main_skeleton_cases true loads rs with h | h | h | h | ⟨hf, _⟩
  · simp [numUpdateTrades, h]
  · simp [numUpdateTrades, h]
  · simp [numUpdateTrades, h]
  · simp [numUpdateTrades, h]
  · exact absurd hf (by simp)

theorem numRaised_set_take_profit (loads : PyVal → Except String PyVal)
    (r : Except String PyVal) (tid : PyVal) (tp : ℤ) :
    numRaised (set_take_profit loads r tid tp) = 0 := by
  have hparse : ∀ v, (parse_response loads v).events.countP isRaised = 0 := by
    intro v
    unfold parse_response
    split
    · rfl
    · rfl
    · split <;> rfl
  unfold set_take_profit
  dsimp only
  split
  · rfl
  · split
    · split
      · simp only [numRaised]
        rw [List.countP_append, List.countP_append, hparse]
        rfl
      · simp only [numRaised]
        rw [List.countP_append, List.countP_append, hparse]
        rfl
    · simp only [numRaised]
      rw [List.countP_append, List.countP_append, hparse]
      rfl

/-! ## The claims -/

/-- Claim C1, corrected.  For every nonzero numeric price the converter
returns round(usd_amount / price * 1e8) with nothing logged; for a zero
price (ZeroDivisionError) and for non numeric input (TypeError) it returns
exactly 0 with an error logged.  The original claim also demanded 0 for
negative prices, which the code does not do (see the counterexample). -/
theorem C1_usd_to_sats_conversion (a p : ℚ) (u b : PyVal) :
    (p ≠ 0 → usd_to_sats (PyVal.num a) (PyVal.num p) =
      ⟨[], pyround (a / p * 100000000)⟩) ∧
    (usd_to_sats (PyVal.num a) (PyVal.num 0) =
      ⟨[Event.logError "Fout in usd_to_sats: %s" []], 0⟩) ∧
    ((isNum u = false ∨ isNum b = false) →
      usd_to_sats u b = ⟨[Event.logError "Fout in usd_to_sats: %s" []], 0⟩) := by
  refine ⟨?_, rfl, ?_⟩
  · intro hp
    simp only [usd_to_sats]
    rw [if_neg hp]
    rw [← qmul_eq, ← qdiv_eq]
  · intro h
    cases u <;> cases b <;> first | rfl | simp [isNum] at h

/-- Witness for C1: at usd amount 5 and price 50000 the hypothesis of the
positive branch holds and the converter yields 10000 satoshis. -/
theorem C1_witness :
    (50000 : ℚ) ≠ 0 ∧ (usd_to_sats (PyVal.num 5) (PyVal.num 50000)).value = 10000 := by
  refine ⟨by norm_num, ?_⟩
  rw [(C1_usd_to_sats_conversion 5 50000 PyVal.none PyVal.none).1 (by norm_num)]
  show pyround ((5 : ℚ) / 50000 * 100000000) = 10000
  rw [← qmul_eq, ← qdiv_eq]
  rfl

/-- Counterexample to C1 as stated: at the negative price -50000 the code
does not return 0; Python division by a negative number raises nothing,
so the converter returns the rounded negative value -10000. -/
theorem C1_counterexample :
    (usd_to_sats (PyVal.num 5) (PyVal.num (-50000))).value = -10000 ∧
    ((-10000 : ℤ) ≠ 0) :=
  ⟨rfl, by decide⟩

/-- Claim C2.  An order placement returns the normalized order record
exactly when the normalized response carries a present and truthy id
field; with the id absent, falsy, or the normalized response not even a
dictionary, and likewise on a transport error, both placement functions
return the failure sentinel None.  Both embeddings are total functions:
no exception escapes them. -/
theorem C2_order_id_decides_success (loads : PyVal → Except String PyVal)
    (r : PyVal) (m l pr : ℤ) (tp : Option ℤ) :
    (hasTruthyId (parse_response loads r).value = false →
      (place_market_buy_order loads (Except.ok r) m l tp).result = Option.none ∧
      (place_limit_buy_order loads (Except.ok r) m l pr tp).result = Option.none) ∧
    (hasTruthyId (parse_response loads r).value = true →
      (place_market_buy_order loads (Except.ok r) m l tp).result =
        Option.some (parse_response loads r).value ∧
      (place_limit_buy_order loads (Except.ok r) m l pr tp).result =
        Option.some (parse_response loads r).value) ∧
    (∀ e : String,
      (place_market_buy_order loads (Except.error e) m l tp).result = Option.none ∧
      (place_limit_buy_order loads (Except.error e) m l pr tp).result = Option.none) := by
  refine ⟨?_, ?_, ?_⟩
  · intro h
    constructor
    · rw [place_market_result_characterization]
      dsimp only
      rw [if_neg (by simp [h])]
    · rw [place_limit_result_characterization]
      dsimp only
      rw [if_neg (by simp [h])]
  · intro h
    constructor
    · rw [place_market_result_characterization]
      dsimp only
      rw [if_pos h]
    · rw [place_limit_result_characterization]
      dsimp only
      rw [if_pos h]
  · intro e
    exact ⟨by rw [place_market_result_characterization],
      by rw [place_limit_result_characterization]⟩

/-- Witness for C2: a response that carries a status but no id is refused
by both placement functions. -/
theorem C2_witness :
    hasTruthyId (parse_response scenLoads
      (PyVal.dict [("status", PyVal.str "filled")])).value = false ∧
    (place_market_buy_order scenLoads
      (Except.ok (PyVal.dict [("status", PyVal.str "filled")])) 10000 1
      Option.none).result = Option.none ∧
    (place_limit_buy_order scenLoads
      (Except.ok (PyVal.dict [("status", PyVal.str "filled")])) 10000 1 49900
      Option.none).result = Option.none := by
  have h := (C2_order_id_decides_success scenLoads
    (PyVal.dict [("status", PyVal.str "filled")]) 10000 1 49900 Option.none).1 rfl
  exact ⟨rfl, h.1, h.2⟩

/-- Claim C7.  The response normalizer returns a structured input (dict or
list) unchanged with nothing logged; any other input goes to the
deserializer, whose success value is returned as is, and whose failure is
logged and turned into the empty dict.  The embedding is a total function:
it never raises. -/
theorem C7_parse_response_contract (loads : PyVal → Except String PyVal) (v : PyVal) :
    (isStructured v = true → parse_response loads v = ⟨[], v⟩) ∧
    (isStructured v = false →
      (∀ w, loads v = Except.ok w → parse_response loads v = ⟨[], w⟩) ∧
      (∀ e, loads v = Except.error e → parse_response loads v =
        ⟨[Event.logError "Fout bij parsen response: %s" [PyVal.str e]], PyVal.dict []⟩)) := by
  cases v with
  | dict fs => exact ⟨fun _ => rfl, fun h => by simp [isStructured] at h⟩
  | list xs => exact ⟨fun _ => rfl, fun h => by simp [isStructured] at h⟩
  | none =>
    refine ⟨fun h => by simp [isStructured] at h, fun _ => ⟨?_, ?_⟩⟩
    · intro w hw
      unfold parse_response
      dsimp only
      rw [hw]
    · intro e he
      unfold parse_response
      dsimp only
      rw [he]
  | num q =>
    refine ⟨fun h => by simp [isStructured] at h, fun _ => ⟨?_, ?_⟩⟩
    · intro w hw
      unfold parse_response
      dsimp only
      rw [hw]
    · intro e he
      unfold parse_response
      dsimp only
      rw [he]
  | str s =>
    refine ⟨fun h => by simp [isStructured] at h, fun _ => ⟨?_, ?_⟩⟩
    · intro w hw
      unfold parse_response
      dsimp only
      rw [hw]
    · intro e he
      unfold parse_response
      dsimp only
      rw [he]

/-- Witness for C7: a structured record passes through unchanged, and a
string whose deserialization fails becomes the empty dict with the error
logged. -/
theorem C7_witness :
    isStructured (PyVal.dict [("id", PyVal.str "a")]) = true ∧
    parse_response scenLoads (PyVal.dict [("id", PyVal.str "a")]) =
      ⟨[], PyVal.dict [("id", PyVal.str "a")]⟩ ∧
    isStructured (PyVal.str "geen json") = false ∧
    parse_response scenLoads (PyVal.str "geen json") =
      ⟨[Event.logError "Fout bij parsen response: %s" [PyVal.str "niet gebruikt"]],
        PyVal.dict []⟩ := by
  refine ⟨rfl, ?_, rfl, ?_⟩
  · exact (C7_parse_response_contract scenLoads (PyVal.dict [("id", PyVal.str "a")])).1 rfl
  · exact ((C7_parse_response_contract scenLoads (PyVal.str "geen json")).2 rfl).2
      "niet gebruikt" rfl

/-- Claim C3.  Each failure sentinel in the orchestration aborts the run
immediately: a missing price, a non positive margin, a failed first order
or a failed second order leave exactly the placements already attempted in
the trace, no update call, and no retry of the failed step. -/
theorem C3_failure_sentinel_aborts (direct : Bool) (loads : PyVal → Except String PyVal)
    (rs : List (Except String PyVal)) :
    ((get_ticker loads (headResp rs)).price = Option.none →
      numNewTrades (Testscript.main direct loads rs) = 0 ∧
      numUpdateTrades (Testscript.main direct loads rs) = 0) ∧
    (∀ p : ℚ, (get_ticker loads (headResp rs)).price = Option.some p →
      (usd_to_sats (PyVal.num 5) (PyVal.num p)).value ≤ 0 →
      numNewTrades (Testscript.main direct loads rs) = 0 ∧
      numUpdateTrades (Testscript.main direct loads rs) = 0) ∧
    (∀ p : ℚ, (get_ticker loads (headResp rs)).price = Option.some p →
      0 < (usd_to_sats (PyVal.num 5) (PyVal.num p)).value →
      (place_market_buy_order loads (headResp rs.tail)
        (usd_to_sats (PyVal.num 5) (PyVal.num p)).value 1 Option.none).result = Option.none →
      numNewTrades (Testscript.main direct loads rs) = 1 ∧
      numUpdateTrades (Testscript.main direct loads rs) = 0) ∧
    (∀ (p : ℚ) (o1 : PyVal), (get_ticker loads (headResp rs)).price = Option.some p →
      0 < (usd_to_sats (PyVal.num 5) (PyVal.num p)).value →
      (place_market_buy_order loads (headResp rs.tail)
        (usd_to_sats (PyVal.num 5) (PyVal.num p)).value 1 Option.none).result =
        Option.some o1 →
      (place_market_buy_order loads (headResp rs.tail.tail)
        (usd_to_sats (PyVal.num 5) (PyVal.num p)).value 1
        (if direct then Option.some (pyround (qmul p (qdiv 101 100)))
         else Option.none)).result = Option.none →
      numNewTrades (Testscript.main direct loads rs) = 2 ∧
      numUpdateTrades (Testscript.main direct loads rs) = 0) := by
  refine ⟨?_, ?_, ?_, ?_⟩
  · intro h
    rw [main_trace_ticker_none direct loads rs h]
    constructor <;>
      simp [numNewTrades, numUpdateTrades, skeleton_append, skeleton_get_ticker,
        skeleton_cons, tagOf, skeleton_nil]
  · intro p hp hm
    rw [main_trace_margin_nonpos direct loads rs p hp hm]
    constructor <;>
      simp [numNewTrades, numUpdateTrades, skeleton_append, skeleton_get_ticker,
        skeleton_usd_to_sats, skeleton_cons, tagOf, skeleton_nil]
  · intro p hp hm h1
    rw [main_trace_first_fails direct loads rs p hp hm h1]
    constructor <;>
      simp [numNewTrades, numUpdateTrades, skeleton_append, skeleton_get_ticker,
        skeleton_usd_to_sats, skeleton_cons, tagOf, Option.elim, skeleton_place_market,
        skeleton_nil]
  · intro p o1 hp hm h1 h2
    rw [main_trace_second_fails direct loads rs p o1 hp hm h1 h2]
    cases direct <;>
      constructor <;>
        simp [numNewTrades, numUpdateTrades, skeleton_append, skeleton_get_ticker,
          skeleton_usd_to_sats, skeleton_cons, tagOf, Option.elim, skeleton_place_market,
          skeleton_nil]

/-- Witness for C3: with the ticker at 50000 and an id-less response to
the first order, exactly one placement is attempted and the run stops. -/
theorem C3_witness :
    numNewTrades (Testscript.main true scenLoads scenFirstFails) = 1 ∧
    numUpdateTrades (Testscript.main true scenLoads scenFirstFails) = 0 :=
  (C3_failure_sentinel_aborts true scenLoads scenFirstFails).2.2.1 50000 rfl (by decide) rfl

/-- Claim C4.  The price fetch returns the lastPrice of the normalized
ticker converted with float exactly when that conversion succeeds and is
strictly positive (in particular the numeric string 50000 gives the
number 50000); a non positive or unconvertible value, an absent
lastPrice, or a transport error all give the sentinel None.  The
embedding is a total function: no exception reaches the caller. -/
theorem C4_get_ticker_contract (loads : PyVal → Except String PyVal) :
    (∀ (fs : List (String × PyVal)) (v : PyVal) (q : ℚ),
      fs.lookup "lastPrice" = Option.some v → pyFloat v = Option.some q → 0 < q →
      (get_ticker loads (Except.ok (PyVal.dict fs))).price = Option.some q) ∧
    (∀ (fs : List (String × PyVal)) (v : PyVal) (q : ℚ),
      fs.lookup "lastPrice" = Option.some v → pyFloat v = Option.some q → q ≤ 0 →
      (get_ticker loads (Except.ok (PyVal.dict fs))).price = Option.none) ∧
    (∀ (fs : List (String × PyVal)) (v : PyVal),
      fs.lookup "lastPrice" = Option.some v → pyFloat v = Option.none →
      (get_ticker loads (Except.ok (PyVal.dict fs))).price = Option.none) ∧
    (∀ fs : List (String × PyVal), fs.lookup "lastPrice" = Option.none →
      (get_ticker loads (Except.ok (PyVal.dict fs))).price = Option.none) ∧
    (∀ e : String, (get_ticker loads (Except.error e)).price = Option.none) ∧
    (∀ fs : List (String × PyVal),
      fs.lookup "lastPrice" = Option.some (PyVal.str "50000") →
      (get_ticker loads (Except.ok (PyVal.dict fs))).price = Option.some 50000) := by
  have hcore : ∀ (fs : List (String × PyVal)) (v : PyVal),
      fs.lookup "lastPrice" = Option.some v →
      (get_ticker loads (Except.ok (PyVal.dict fs))).price =
        (match pyFloat v with
         | Option.some q => if q ≤ 0 then Option.none else Option.some q
         | Option.none => Option.none) := by
    intro fs v hl
    unfold get_ticker
    dsimp only [parse_response]
    rw [hl]
    dsimp only [Option.getD]
    cases hv : pyFloat v with
    | none => rfl
    | some q =>
      dsimp only
      split <;> rfl
  refine ⟨?_, ?_, ?_, ?_, ?_, ?_⟩
  · intro fs v q hl hf hq
    rw [hcore fs v hl, hf]
    dsimp only
    rw [if_neg (not_le_of_lt hq)]
  · intro fs v q hl hf hq
    rw [hcore fs v hl, hf]
    dsimp only
    rw [if_pos hq]
  · intro fs v hl hf
    rw [hcore fs v hl, hf]
  · intro fs hl
    unfold get_ticker
    dsimp only [parse_response]
    rw [hl]
    rfl
  · intro e
    rfl
  · intro fs hl
    rw [hcore fs (PyVal.str "50000") hl]
    rfl

/-- Witness for C4: a ticker response carrying lastPrice as the string
50000 yields the price 50000, and one with lastPrice 0 yields None. -/
theorem C4_witness :
    (get_ticker scenLoads (Except.ok
      (PyVal.dict [("lastPrice", PyVal.str "50000")]))).price = Option.some 50000 ∧
    (get_ticker scenLoads (Except.ok
      (PyVal.dict [("lastPrice", PyVal.num 0)]))).price = Option.none := by
  constructor
  · exact (C4_get_ticker_contract scenLoads).2.2.2.2.2
      [("lastPrice", PyVal.str "50000")] rfl
  · exact (C4_get_ticker_contract scenLoads).2.1
      [("lastPrice", PyVal.num 0)] (PyVal.num 0) 0 rfl rfl le_rfl

/-- Claim C5.  Under the direct policy the take-profit handed to the
creation call of the second order is round(market_price * 1.01) computed
from the pre-trade price, and no update call is ever made in a direct
run: the entry-price based target is only logged. -/
theorem C5_direct_take_profit (loads : PyVal → Except String PyVal)
    (rs : List (Except String PyVal)) (p : ℚ) (o1 : PyVal)
    (hp : (get_ticker loads (headResp rs)).price = Option.some p)
    (hm : 0 < (usd_to_sats (PyVal.num 5) (PyVal.num p)).value)
    (h1 : (place_market_buy_order loads (headResp rs.tail)
      (usd_to_sats (PyVal.num 5) (PyVal.num p)).value 1 Option.none).result =
      Option.some o1) :
    (newTradeParams (Testscript.main true loads rs))[1]? =
      Option.some (marketOrderParams (usd_to_sats (PyVal.num 5) (PyVal.num p)).value 1
        (Option.some (pyround (p * (101 / 100))))) ∧
    numUpdateTrades (Testscript.main true loads rs) = 0 := by
  have hb : pyround (p * (101 / 100)) = pyround (qmul p (qdiv 101 100)) := by
    rw [qmul_eq, qdiv_eq]
  rw [hb]
  exact ⟨(main_direct_second_params loads rs p o1 hp hm h1).2,
    main_direct_no_update loads rs⟩

/-- Witness for C5: in the successful end-to-end scenario the second
placement carries take-profit round(50000 * 1.01) and the run contains no
update call. -/
theorem C5_witness :
    (newTradeParams (Testscript.main true scenLoads scenResponses))[1]? =
      Option.some (marketOrderParams
        (usd_to_sats (PyVal.num 5) (PyVal.num 50000)).value 1
        (Option.some (pyround ((50000 : ℚ) * (101 / 100))))) ∧
    numUpdateTrades (Testscript.main true scenLoads scenResponses) = 0 :=
  C5_direct_take_profit scenLoads scenResponses 50000 (PyVal.dict [("id", PyVal.str "a")])
    rfl (by decide) rfl

/-- Claim C6.  Under the deferred policy, a successful second order whose
response carries no entry price skips the take-profit attachment
entirely: an error is logged, no update call happens anywhere in the run,
and the order is left without a take-profit. -/
theorem C6_deferred_missing_entry_skips (loads : PyVal → Except String PyVal)
    (rs : List (Except String PyVal)) (p : ℚ) (o1 : PyVal) (fs : List (String × PyVal))
    (hp : (get_ticker loads (headResp rs)).price = Option.some p)
    (hm : 0 < (usd_to_sats (PyVal.num 5) (PyVal.num p)).value)
    (h1 : (place_market_buy_order loads (headResp rs.tail)
      (usd_to_sats (PyVal.num 5) (PyVal.num p)).value 1 Option.none).result =
      Option.some o1)
    (h2 : (place_market_buy_order loads (headResp rs.tail.tail)
      (usd_to_sats (PyVal.num 5) (PyVal.num p)).value 1 Option.none).result =
      Option.some (PyVal.dict fs))
    (hent : fs.lookup "entry_price" = Option.none) :
    numUpdateTrades (Testscript.main false loads rs) = 0 ∧
    Event.logError "Entry_price niet gevonden voor tweede order." [] ∈
      Testscript.main false loads rs := by
  have htruthy2 : truthy (PyVal.dict fs) = true :=
    (place_market_result_some loads (headResp rs.tail.tail) _ 1 Option.none _ h2).1
  rw [main_trace_deferred_entry_missing loads rs p o1 fs hp hm h1 h2 hent]
  constructor
  · simp [numUpdateTrades, skeleton_append, skeleton_get_ticker, skeleton_usd_to_sats,
      skeleton_cons, tagOf, Option.elim, skeleton_place_market,
      skeleton_after_second_truthy _ _ _ _ _ htruthy2, skeleton_nil]
  · simp

/-- Witness for C6: with the second fill response lacking entry_price the
run logs the missing entry price and never calls the update endpoint. -/
theorem C6_witness :
    numUpdateTrades (Testscript.main false scenLoads scenNoEntry) = 0 ∧
    Event.logError "Entry_price niet gevonden voor tweede order." [] ∈
      Testscript.main false scenLoads scenNoEntry :=
  C6_deferred_missing_entry_skips scenLoads scenNoEntry 50000
    (PyVal.dict [("id", PyVal.str "a")]) [("id", PyVal.str "b")]
    rfl (by decide) rfl rfl rfl

/-- Claim C8, corrected.  End-to-end at price 50000 with usd amount 5:
the margin is round(5 / 50000 * 1e8) = 10000 satoshis, the second order
requests take-profit round(50000 * 1.01) = 50500, with entry price 50010
the logged ideal target is round(50010 * 1.01) = 50510 (the original
claim said 50560, which is arithmetically wrong) while the live order
keeps 50500, and the third order is placed at limit price
round(50000 - 100) = 49900 with take-profit round(49900 * 1.01) = 50399. -/
theorem C8_end_to_end_numbers :
    (usd_to_sats (PyVal.num 5) (PyVal.num 50000)).value = 10000 ∧
    newTradeParams (Testscript.main true scenLoads scenResponses) =
      [marketOrderParams 10000 1 Option.none,
       marketOrderParams 10000 1 (Option.some 50500),
       limitOrderParams 10000 1 49900 (Option.some 50399)] ∧
    idealTpLogs (Testscript.main true scenLoads scenResponses) =
      [[PyVal.num 50010, PyVal.num 50500, PyVal.num 50510]] ∧
    pyround ((5 : ℚ) / 50000 * 100000000) = 10000 ∧
    pyround ((50000 : ℚ) * (101 / 100)) = 50500 ∧
    pyround ((50000 : ℚ) - 100) = 49900 ∧
    pyround ((49900 : ℚ) * (101 / 100)) = 50399 ∧
    pyround ((50010 : ℚ) * (101 / 100)) = 50510 := by
  refine ⟨rfl, rfl, rfl, ?_, ?_, ?_, ?_, ?_⟩
  · rw [← qmul_eq, ← qdiv_eq]
    rfl
  · rw [← qmul_eq, ← qdiv_eq]
    rfl
  · rw [← qsub_eq]
    rfl
  · rw [← qmul_eq, ← qdiv_eq]
    rfl
  · rw [← qmul_eq, ← qdiv_eq]
    rfl

/-- Counterexample to C8 as stated: the ideal target logged for entry
price 50010 is 50510, because round(50010 * 1.01) = 50510; the value
50560 given by the claim is not what the code logs. -/
theorem C8_counterexample :
    idealTpLogs (Testscript.main true scenLoads scenResponses) =
      [[PyVal.num 50010, PyVal.num 50500, PyVal.num 50510]] ∧
    pyround ((50010 : ℚ) * (101 / 100)) = 50510 ∧ ((50510 : ℤ) ≠ 50560) := by
  refine ⟨rfl, ?_, by decide⟩
  rw [← qmul_eq, ← qdiv_eq]
  rfl

/-- Claim C9, corrected.  The pacing of a run: a fixed REQUEST_DELAY
sleep follows the first and the second order placements (before the next
call), but no sleep follows the third placement, after which the run
ends; on an abort or an uncaught error the remaining sleeps are skipped.
The original claim, which required a delay after each of the three
placements, fails on the third (see the counterexample). -/
theorem C9_fixed_delays (direct : Bool) (loads : PyVal → Except String PyVal)
    (rs : List (Except String PyVal)) :
    skeleton (Testscript.main direct loads rs) = [] ∨
    skeleton (Testscript.main direct loads rs) = [CallTag.newT] ∨
    skeleton (Testscript.main direct loads rs) =
      [CallTag.newT, CallTag.sleepT REQUEST_DELAY, CallTag.newT] ∨
    skeleton (Testscript.main direct loads rs) =
      [CallTag.newT, CallTag.sleepT REQUEST_DELAY, CallTag.newT,
        CallTag.sleepT REQUEST_DELAY, CallTag.newT] ∨
    (direct = false ∧
      skeleton (Testscript.main direct loads rs) =
        [CallTag.newT, CallTag.sleepT REQUEST_DELAY, CallTag.newT, CallTag.updT,
          CallTag.sleepT REQUEST_DELAY, CallTag.newT]) :=
  main_skeleton_cases direct loads rs

/-- Counterexample to C9 as stated: the fully successful direct run makes
three placements but sleeps only twice, and its last event is the success
log line of the limit order, not a sleep: no delay follows the third
placement. -/
theorem C9_counterexample :
    numNewTrades (Testscript.main true scenLoads scenResponses) = 3 ∧
    numSleeps (Testscript.main true scenLoads scenResponses) = 2 ∧
    (Testscript.main true scenLoads scenResponses).getLast? =
      Option.some (Event.logInfo
        "Limietorder succesvol geplaatst op prijs %.0f met take-profit %.0f"
        [PyVal.num 49900, PyVal.num 50399]) :=
  ⟨rfl, rfl, rfl⟩

/-- Claim C10.  A failed take-profit attachment never aborts the run:
set_take_profit catches every exception (its trace never contains an
uncaught-exception marker) and returns nothing that main checks, so under
the deferred policy, whatever the update response is, including a
transport error, the run still proceeds to place the third, limit order:
three placements and exactly one update call. -/
theorem C10_take_profit_failure_ignored (loads : PyVal → Except String PyVal)
    (rs : List (Except String PyVal)) (p : ℚ) (o1 : PyVal) (fs : List (String × PyVal))
    (e : ℚ) (idv : PyVal)
    (hp : (get_ticker loads (headResp rs)).price = Option.some p)
    (hm : 0 < (usd_to_sats (PyVal.num 5) (PyVal.num p)).value)
    (h1 : (place_market_buy_order loads (headResp rs.tail)
      (usd_to_sats (PyVal.num 5) (PyVal.num p)).value 1 Option.none).result =
      Option.some o1)
    (h2 : (place_market_buy_order loads (headResp rs.tail.tail)
      (usd_to_sats (PyVal.num 5) (PyVal.num p)).value 1 Option.none).result =
      Option.some (PyVal.dict fs))
    (hent : fs.lookup "entry_price" = Option.some (PyVal.num e)) (he : e ≠ 0)
    (hid : fs.lookup "id" = Option.some idv) :
    numNewTrades (Testscript.main false loads rs) = 3 ∧
    numUpdateTrades (Testscript.main false loads rs) = 1 ∧
    (∀ (r : Except String PyVal) (tid : PyVal) (tp : ℤ),
      numRaised (set_take_profit loads r tid tp) = 0) := by
  have htruthy2 : truthy (PyVal.dict fs) = true :=
    (place_market_result_some loads (headResp rs.tail.tail) _ 1 Option.none _ h2).1
  rw [main_trace_deferred_entry_present loads rs p o1 fs e idv hp hm h1 h2 hent he hid]
  refine ⟨?_, ?_, fun r tid tp => numRaised_set_take_profit loads r tid tp⟩
  · simp [numNewTrades, skeleton_append, skeleton_get_ticker, skeleton_usd_to_sats,
      skeleton_cons, tagOf, Option.elim, skeleton_place_market, skeleton_set_take_profit,
      skeleton_after_second_truthy _ _ _ _ _ htruthy2, skeleton_nil]
  · simp [numUpdateTrades, skeleton_append, skeleton_get_ticker, skeleton_usd_to_sats,
      skeleton_cons, tagOf, Option.elim, skeleton_place_market, skeleton_set_take_profit,
      skeleton_after_second_truthy _ _ _ _ _ htruthy2, skeleton_nil]

/-- Witness for C10: with the update call answered by a transport error
the deferred run still makes three placements and one update attempt, and
set_take_profit swallows the failure. -/
theorem C10_witness :
    numNewTrades (Testscript.main false scenLoads scenUpdateFails) = 3 ∧
    numUpdateTrades (Testscript.main false scenLoads scenUpdateFails) = 1 ∧
    numRaised (set_take_profit scenLoads (Except.error "update mislukt")
      (PyVal.str "b") 50510) = 0 := by
  have h := C10_take_profit_failure_ignored scenLoads scenUpdateFails 50000
    (PyVal.dict [("id", PyVal.str "a")])
    [("id", PyVal.str "b"), ("entry_price", PyVal.num 50010)] 50010 (PyVal.str "b")
    rfl (by decide) rfl rfl rfl (by decide) rfl
  exact ⟨h.1, h.2.1, h.2.2 (Except.error "update mislukt") (PyVal.str "b") 50510⟩
